import Mathlib

/-!
Verification development for the weatherbot repository (app/weather_agent.py,
app/chatbot.py, app/stt_helpers.py, app/main.py).

The Python code is shallowly embedded: dictionaries/JSON documents become the
`JVal` inductive, Python truthiness becomes `truthy`, exceptions become
`Except String`, and every external collaborator (spaCy NER, OpenWeather
geocoding/weather, rapidfuzz, dateparser, Azure STT/translator, the LLM, the
clock and the filesystem) is an oracle field of the `Env` structure.  External
calls made by the code are logged in a `List ExtCall` so that statements such
as "the weather fetcher is never invoked" are expressible.
-/

set_option autoImplicit false

namespace Weatherbot

/-! ## Python string helpers -/

/-- Python whitespace characters relevant to `str.strip()` (ASCII subset). -/
def wsChars : List Char := [' ', '\t', '\n', '\r', '\x0b', '\x0c']

/-- Drop characters satisfying `p` from both ends of a list. -/
def dropEnds (p : Char → Bool) (l : List Char) : List Char :=
  ((l.dropWhile p).reverse.dropWhile p).reverse

/-- Python `s.strip()` (whitespace on both ends). -/
def pyStrip (s : String) : String :=
  String.mk (dropEnds (fun c => wsChars.contains c) s.toList)

/-- Python `s.strip(", ")` (commas and spaces on both ends). -/
def pyStripCommaSpace (s : String) : String :=
  String.mk (dropEnds (fun c => c = ',' || c = ' ') s.toList)

/-- Python `s.split(",")[0]`: everything before the first comma. -/
def splitHeadComma (s : String) : String :=
  String.mk (s.toList.takeWhile (fun c => c ≠ ','))

/-- ASCII lowercasing, modelling Python `str.lower()` on the ASCII inputs used here. -/
def asciiLower (s : String) : String :=
  String.mk (s.toList.map Char.toLower)

/-- `pre` is a prefix of `s` (Python `str.startswith`). -/
def strStartsWith (s pre : String) : Bool :=
  pre.toList.isPrefixOf s.toList

/-- Substring test on char lists (Python `needle in hay`). -/
def hasSubL (n : List Char) : List Char → Bool
  | [] => n.isEmpty
  | c :: t => n.isPrefixOf (c :: t) || hasSubL n t

/-- Python `needle in hay` on strings. -/
def hasSubStr (needle hay : String) : Bool :=
  hasSubL needle.toList hay.toList

/-- A single apostrophe character, used in error message strings. -/
def squote : String := String.singleton (Char.ofNat 39)

/-! ## JSON values (Python dicts/lists as they appear in this codebase) -/

/-- A JSON-like value: the dynamic values flowing through the Python code.
Numbers are modelled as `Int` (the only numeric values relevant to the claims
are epoch seconds and the float `0.0` confidence, modelled as `0`). -/
inductive JVal where
  | null
  | str (s : String)
  | num (n : Int)
  | bool (b : Bool)
  | arr (xs : List JVal)
  | obj (fields : List (String × JVal))

/-- Python truthiness for the values above: `None`, `""`, `0`, `False`,
`[]` and `\x7b\x7d` are falsy, everything else truthy. -/
def truthy : JVal → Bool
  | .null => false
  | .str s => !(s = "")
  | .num n => !(n = 0)
  | .bool b => b
  | .arr xs => !xs.isEmpty
  | .obj fs => !fs.isEmpty

/-- Python `a or b` on values (returns `a` when truthy, else `b`). -/
def pyOr (a b : JVal) : JVal :=
  if truthy a then a else b

/-- Truthiness of an optional string (`None` and `""` are falsy). -/
def truthyOS : Option String → Bool
  | none => false
  | some s => !(s = "")

/-- Python `a or b` where both operands are optional strings. -/
def orOS (a b : Option String) : Option String :=
  if truthyOS a then a else b

/-- First binding of key `k` in an association list (Python dict lookup;
dict keys are unique, so first-match is exact). -/
def alookup : List (String × JVal) → String → Option JVal
  | [], _ => none
  | (k', v) :: rest, k => if k' = k then some v else alookup rest k

/-- Python `d[k] = v`: replace the binding in place, or append a new one
(preserving insertion order like a Python dict). -/
def aset : List (String × JVal) → String → JVal → List (String × JVal)
  | [], k, v => [(k, v)]
  | (k', v') :: rest, k, v =>
      if k' = k then (k, v) :: rest else (k', v') :: aset rest k v

/-- `k in d` for an association list. -/
def hasKeyB (fs : List (String × JVal)) (k : String) : Bool :=
  (alookup fs k).isSome

/-- Python `d.get(k, default)` on a value already known to be a dict
(used only where the source guarantees a dict; see call sites). -/
def dget (v : JVal) (k : String) (d : JVal) : JVal :=
  match v with
  | .obj fs => (alookup fs k).getD d
  | _ => d

/-- `result.setdefault("warnings", []).append(w)`: append `w` to the
warnings list, creating it if absent. -/
def appendWarning (fs : List (String × JVal)) (w : String) : List (String × JVal) :=
  match alookup fs "warnings" with
  | some (.arr ws) => aset fs "warnings" (.arr (ws ++ [.str w]))
  | some _ => fs    -- `.append` on a non-list would raise; unreachable in these flows
  | none => aset fs "warnings" (.arr [.str w])

/-- Python `f"\x7bv\x7d"` string formatting for the scalar values that reach it. -/
def jToPyStr : JVal → String
  | .str s => s
  | .null => "None"
  | .num n => toString n
  | .bool true => "True"
  | .bool false => "False"
  | .arr _ => "<list>"
  | .obj _ => "<dict>"

/-- Lift an optional string to a JSON value (`None` / `str`). -/
def optToJ : Option String → JVal
  | none => .null
  | some s => .str s

/-! ## External calls and the oracle environment -/

/-- One call to an external collaborator (or an entry into one of the two
agent functions, logged so that "X is invoked" is observable). -/
inductive ExtCall where
  | ner (query : String)
  | geo (query : String) (limit : Nat)
  | fuzzy (raw : String) (cands : List String) (cutoff : Nat)
  | nluParse (query : String)
  | fetchw (location : JVal)
  | wgeo (query : String) (limit : Nat)
  | wcur (lat : JVal) (lon : JVal)
  | translateCall (text : String)
  | llm

/-- Outcome of the Azure speech recognizer (`recognize_once`), as consumed
by `transcribe_with_azure`: recognized speech with the detected language as
parsed (or unparsable) from the result JSON, no-match, or any other reason
with its error details. -/
inductive AzureOutcome where
  | recognized (text : String) (detected : Option String)
  | noMatch
  | failure (err : String)

/-- All external collaborators, configuration, clock readings and filesystem
outcomes for one run.  Function fields are the request/response services; the
`...Fail : Option String` fields are `none` when the corresponding file write
succeeds and `some e` when it raises exception text `e`. -/
structure Env where
  /-- `spacy.load` succeeded (`nlp` is not `None`). -/
  nlpLoaded : Bool
  /-- spaCy NER: text of the first entity labelled GPE/LOC, if any. -/
  ner : String → Option String
  /-- OpenWeather geocoding as used by `get_candidate_locations`
  (`requests.get(...).json()`; `.error` is a transport/decode exception). -/
  geo : String → Nat → Except String (List JVal)
  /-- `rapidfuzz.process.extractOne(raw, cands, score_cutoff)`: the matched
  candidate string, or `none` when no candidate reaches the cutoff. -/
  fuzzyBest : String → List String → Nat → Option String
  /-- `dateparser.parse(query)` composed with `strftime("%Y-%m-%d")`. -/
  dateparse : String → Option String
  /-- `datetime.now(timezone.utc).isoformat()`. -/
  nowIso : String
  /-- `datetime.now(timezone.utc).strftime("%Y-%m-%d")`. -/
  todayYmd : String
  /-- `(datetime.now(timezone.utc) + timedelta(days=1)).strftime("%Y-%m-%d")`. -/
  tomorrowYmd : String
  /-- `OPENWEATHER_API_KEY` environment variable. -/
  owmKey : Option String
  /-- OpenWeather geocoding as used by `fetch_weather` (limit 1). -/
  wgeoSvc : String → Nat → Except String (List JVal)
  /-- OpenWeather current-weather endpoint. -/
  wcurSvc : JVal → JVal → Except String JVal
  /-- `datetime.utcfromtimestamp(dt).replace(tzinfo=utc).isoformat()`. -/
  fmtEpochIso : Int → String
  /-- Azure speech credentials present (`AZURE_SPEECH_KEY` / `_REGION`). -/
  azureCreds : Bool
  /-- Azure recognizer outcome for the audio of this trace. -/
  azure : AzureOutcome
  /-- `translate_to_english` outcome (Azure translator, including its own
  credential check, collapsed into one oracle). -/
  translateSvc : String → Except String String
  /-- `int(time.time())` at the result construction of `process_trace`. -/
  nowEpoch : Int
  /-- `os.path.exists(uploads/<trace_id>.wav)`. -/
  audioExists : Bool
  /-- Checkpoint-1 sidecar write outcome. -/
  w1Fail : Option String
  /-- Plain-text transcript file write outcome. -/
  txtFail : Option String
  /-- `from .weather_agent import travel_weather_agent` outcome. -/
  agentImportFail : Option String
  /-- Checkpoint-2 sidecar write outcome. -/
  w2Fail : Option String
  /-- `from .chatbot import generate_travel_response` outcome. -/
  chatbotImportFail : Option String
  /-- `OPENAI_API_KEY` environment variable. -/
  openaiKey : Option String
  /-- `GOOGLE_API_KEY` environment variable. -/
  googleKey : Option String
  /-- LLM call outcome (`call_model_generate`, including SDK configuration;
  the prompt strings are pure formatting fed only to this opaque oracle and
  are therefore not reconstructed). -/
  llm : Except String String
  /-- `datetime.utcnow()...isoformat() + "Z"` in `generate_travel_response`. -/
  genAt : String
  /-- `load_json(sidecar_path)` outcome inside `generate_travel_response`
  (`none` means the freshly written sidecar is read back successfully). -/
  sidecarReadFail : Option String
  /-- Status-done sidecar write outcome in `background_process_trace`. -/
  wDoneFail : Option String
  /-- Chatbot-failed sidecar write outcome in `background_process_trace`. -/
  wChatFail : Option String
  /-- Failure-record sidecar write outcome in `background_process_trace`. -/
  wFailFail : Option String
  /-- `int(time.time())` at the failure-record construction. -/
  failEpoch : Int

/-! ## weather_agent.py -/

/-- `[A-Za-z]` (the character class of the fallback regex). -/
def isAsciiAlpha (c : Char) : Bool :=
  ('A' ≤ c && c ≤ 'Z') || ('a' ≤ c && c ≤ 'z')

/-- Python regex `\w` (ASCII fragment, enough for the queries modelled). -/
def isWordChar (c : Char) : Bool :=
  c.isAlphanum || c = '_'

/-- Greedy continuation of the capture group `(?:\s[A-Za-z]+)*`: repeatedly
one whitespace character then one or more letters.  Fuelled for termination;
the fuel is the length of the remaining input, which suffices. -/
def capMore : Nat → List Char → List Char
  | 0, _ => []
  | _, [] => []
  | fuel + 1, s :: rest =>
    if wsChars.contains s then
      let w := rest.takeWhile isAsciiAlpha
      if w.isEmpty then []
      else s :: (w ++ capMore fuel (rest.drop w.length))
    else []

/-- The capture group `([A-Za-z]+(?:\s[A-Za-z]+)*)` starting at `l`. -/
def capFrom (l : List Char) : Option String :=
  let w1 := l.takeWhile isAsciiAlpha
  if w1.isEmpty then none
  else some (String.mk (w1 ++ capMore l.length (l.drop w1.length)))

/-- The alternation `(?:in|to|at)` (case-insensitive): the rest of the input
after the keyword, when it matches at the head. -/
def kwAt (l : List Char) : Option (List Char) :=
  match l with
  | a :: b :: rest =>
    let ab := [a.toLower, b.toLower]
    if ab = ['i', 'n'] || ab = ['t', 'o'] || ab = ['a', 't'] then some rest else none
  | _ => none

/-- One attempted match of `\b(?:in|to|at)\s+([A-Za-z]+(?:\s[A-Za-z]+)*)`
at the current position (`prev` is the preceding character, for `\b`). -/
def tryMatchAt (prev : Option Char) (l : List Char) : Option String :=
  let boundary := match prev with | none => true | some c => !isWordChar c
  if !boundary then none
  else
    match kwAt l with
    | none => none
    | some rest =>
      let rest2 := rest.dropWhile (fun c => wsChars.contains c)
      if rest2.length = rest.length then none  -- `\s+` needs at least one space
      else capFrom rest2

/-- `re.search`: leftmost match of the fallback pattern, scanning positions
left to right. -/
def reSearchAux : Option Char → List Char → Option String
  | _, [] => none
  | prev, c :: cs =>
    match tryMatchAt prev (c :: cs) with
    | some cap => some cap
    | none => reSearchAux (some c) cs

/-- `re.search(r"\b(?:in|to|at)\s+([A-Za-z]+(?:\s[A-Za-z]+)*)", query, re.I)`,
returning the captured group. -/
def regexInToAt (q : String) : Option String :=
  reSearchAux none q.toList

/-- One geocoding hit formatted as name, comma, space, country, with the
`.get` defaults turning a missing name or country into the empty string;
`none` when the hit is not a dict (`.get` would raise, caught by the
surrounding `except`). -/
def candFmt : JVal → Option String
  | .obj fs =>
    some (jToPyStr ((alookup fs "name").getD (.str "")) ++ ", " ++
          jToPyStr ((alookup fs "country").getD (.str "")))
  | _ => none

/-- Format every geocoding hit (the list comprehension of
`get_candidate_locations`); `none` when some hit raises. -/
def candsOf : List JVal → Option (List String)
  | [] => some []
  | g :: t =>
    match candFmt g, candsOf t with
    | some c, some cs => some (c :: cs)
    | _, _ => none

/-- `get_candidate_locations`: query the geocoder with limit 5 and format the
hits; any exception yields the empty list. -/
def get_candidate_locations (env : Env) (location : String) :
    List String × List ExtCall :=
  match env.geo location 5 with
  | .ok hits =>
    match candsOf hits with
    | some cs => (cs, [.geo location 5])
    | none => ([], [.geo location 5])
  | .error _ => ([], [.geo location 5])

/-- Steps 1 and 2 of `extract_location`: spaCy NER (first GPE/LOC entity,
stripped) with the prepositional-regex fallback when NER produced nothing
truthy. -/
def locSteps12 (env : Env) (query : String) : Option String × List ExtCall :=
  let l1 : Option String :=
    if env.nlpLoaded then (env.ner query).map pyStrip else none
  let c1 : List ExtCall := if env.nlpLoaded then [.ner query] else []
  let l2 :=
    if truthyOS l1 then l1
    else
      match regexInToAt query with
      | some cap => some (pyStrip cap)
      | none => l1
  (l2, c1)

/-- `extract_location`: NER/regex candidate, then validation against the
geocoder with fuzzy matching at cutoff 70; the raw candidate is kept when
there are no geocoding candidates or no fuzzy match. -/
def extract_location (env : Env) (query : String) : Option String × List ExtCall :=
  let (l2, c1) := locSteps12 env query
  match l2 with
  | none => (none, c1)
  | some raw =>
    if raw = "" then (none, c1)  -- Python `if not location: return None`
    else
      let (cands, c2) := get_candidate_locations env raw
      if cands.isEmpty then (some raw, c1 ++ c2)
      else
        match env.fuzzyBest raw cands 70 with
        | some m => (some (splitHeadComma m), c1 ++ c2 ++ [.fuzzy raw cands 70])
        | none => (some raw, c1 ++ c2 ++ [.fuzzy raw cands 70])

/-- `nlu_parser_travel`: location extraction, date parsing with the literal
today/tomorrow fallback, fixed intent/slots/metadata. -/
def nlu_parser_travel (env : Env) (query : String) : JVal × List ExtCall :=
  let (location, c1) := extract_location env query
  let parsed := env.dateparse query
  let ql := asciiLower query
  let date : Option String :=
    match parsed with
    | some d => some d
    | none =>
      if hasSubStr "today" ql then some env.todayYmd
      else if hasSubStr "tomorrow" ql then some env.tomorrowYmd
      else none
  (.obj [("intent", .str "get_weather_travel_advice"),
         ("entities", .obj [("location", optToJ location), ("date", optToJ date)]),
         ("slots", .obj [("theme", .str "travel")]),
         ("dialog_metadata", .obj [("original_query", .str query),
                                   ("language", .str "en"),
                                   ("timestamp", .str env.nowIso)])],
   [.nluParse query] ++ c1)

/-- `resp.get(k1, \x7b\x7d).get(k2)` over a dict's fields. -/
def pyGetIn (fs : List (String × JVal)) (k1 k2 : String) : Except String JVal :=
  match (alookup fs k1).getD (.obj []) with
  | .obj fs2 => .ok ((alookup fs2 k2).getD .null)
  | _ => .error "AttributeError"

/-- `v[0].get(k)` where `v` should be a non-empty list of dicts
(`(resp.get("weather") or [\x7b\x7d])[0].get(...)`). -/
def idx0get (v : JVal) (k : String) : Except String JVal :=
  match v with
  | .arr (h :: _) =>
    match h with
    | .obj fs => .ok ((alookup fs k).getD .null)
    | _ => .error "AttributeError"
  | .arr [] => .error "IndexError"
  | _ => .error "TypeError"

/-- The structured weather result built by `fetch_weather` from the upstream
payload (lines 153-168); shape violations raise, exactly where the Python
field accesses are outside any `try`. -/
def owmResult (env : Env) (resp : JVal) : Except String JVal := do
  match resp with
  | .obj rf =>
    let name := (alookup rf "name").getD .null
    let country ← match (alookup rf "sys").getD (.obj []) with
      | .obj sf => pure ((alookup sf "country").getD .null)
      | _ => Except.error "AttributeError"
    let wlist := pyOr ((alookup rf "weather").getD .null) (.arr [.obj []])
    let wmain ← idx0get wlist "main"
    let wdesc ← idx0get wlist "description"
    let temp ← pyGetIn rf "main" "temp"
    let feels ← pyGetIn rf "main" "feels_like"
    let tmin ← pyGetIn rf "main" "temp_min"
    let tmax ← pyGetIn rf "main" "temp_max"
    let hum ← pyGetIn rf "main" "humidity"
    let wind ← pyGetIn rf "wind" "speed"
    let rain ←
      if truthy ((alookup rf "rain").getD .null) then
        match (alookup rf "rain").getD .null with
        | .obj rf2 => pure ((alookup rf2 "1h").getD (.num 0))
        | _ => Except.error "AttributeError"
      else pure (JVal.num 0)
    let clouds ← pyGetIn rf "clouds" "all"
    let dt := (alookup rf "dt").getD .null
    let ts ←
      if truthy dt then
        match dt with
        | .num n => pure (JVal.str (env.fmtEpochIso n))
        | _ => Except.error "TypeError"
      else pure JVal.null
    pure (JVal.obj [("location", name), ("country", country),
                    ("weather_main", wmain), ("weather_description", wdesc),
                    ("temperature_c", temp), ("feels_like_c", feels),
                    ("temp_min_c", tmin), ("temp_max_c", tmax),
                    ("humidity", hum), ("wind_speed", wind),
                    ("rain_1h", rain), ("cloudiness", clouds),
                    ("timestamp", ts), ("raw", resp)])
  | _ => Except.error "AttributeError"

/-- `fetch_weather`: guard clauses, geocoding (limit 1), current conditions. -/
def fetch_weather (env : Env) (location : JVal) : Except String JVal × List ExtCall :=
  let entry : List ExtCall := [.fetchw location]
  if !truthy location then
    (.ok (.obj [("error", .str "No location provided")]), entry)
  else if !truthyOS env.owmKey then
    (.ok (.obj [("error", .str "OPENWEATHER_API_KEY not set")]), entry)
  else
    let q := jToPyStr location
    let calls1 := entry ++ [ExtCall.wgeo q 1]
    match env.wgeoSvc q 1 with
    | .error e => (.ok (.obj [("error", .str ("geocoding_failed: " ++ e))]), calls1)
    | .ok [] =>
      (.ok (.obj [("error", .str ("Location " ++ squote ++ q ++ squote ++ " not found"))]), calls1)
    | .ok (g :: _) =>
      match g with
      | .obj gf =>
        match alookup gf "lat", alookup gf "lon" with
        | some la, some lo =>
          let calls2 := calls1 ++ [ExtCall.wcur la lo]
          match env.wcurSvc la lo with
          | .error e =>
            (.ok (.obj [("error", .str ("weather_fetch_failed: " ++ e))]), calls2)
          | .ok resp => (owmResult env resp, calls2)
        | _, _ => (.ok (.obj [("error", .str "geocoding_failed: KeyError")]), calls1)
      | _ => (.ok (.obj [("error", .str "geocoding_failed: TypeError")]), calls1)

/-- `travel_weather_agent`: NLU, then weather only for a truthy location. -/
def travel_weather_agent (env : Env) (query : String) :
    Except String JVal × List ExtCall :=
  let (nlu, c1) := nlu_parser_travel env query
  -- `nlu.get("entities", \x7b\x7d).get("location")`; `nlu` is always the dict
  -- built by `nlu_parser_travel`, so plain dict access is exact here
  let location := dget (dget nlu "entities" (.obj [])) "location" .null
  if truthy location then
    match fetch_weather env location with
    | (.ok w, c2) => (.ok (.obj [("nlu", nlu), ("weather", w)]), c1 ++ c2)
    | (.error e, c2) => (.error e, c1 ++ c2)
  else
    (.ok (.obj [("nlu", nlu),
                ("weather", .obj [("error", .str "no_location_extracted")])]), c1)

/-! ## chatbot.py -/

/-- `extract_nlu_weather`: nlu/weather with fallback to `agent_raw`,
raising `ValueError` when either is falsy.  The `or` is lazy: the
`agent_raw` side is only evaluated when the direct field is falsy. -/
def extract_nlu_weather (root : JVal) : Except String (JVal × JVal) :=
  match root with
  | .obj rf =>
    let nluE : Except String JVal :=
      if truthy ((alookup rf "nlu").getD .null) then .ok ((alookup rf "nlu").getD .null)
      else
        match (alookup rf "agent_raw").getD (.obj []) with
        | .obj af => .ok ((alookup af "nlu").getD .null)
        | _ => .error "AttributeError"
    match nluE with
    | .error e => .error e
    | .ok nlu =>
      let wE : Except String JVal :=
        if truthy ((alookup rf "weather").getD .null) then
          .ok ((alookup rf "weather").getD .null)
        else
          match (alookup rf "agent_raw").getD (.obj []) with
          | .obj af => .ok ((alookup af "weather").getD .null)
          | _ => .error "AttributeError"
      match wE with
      | .error e => .error e
      | .ok weather =>
        if !truthy nlu then .error "No NLU found in JSON"
        else if !truthy weather then .error "No weather found in JSON"
        else .ok (nlu, weather)
  | _ => .error "AttributeError"

/-- `build_merged_context`: the flat prompt context from nlu + weather.
Non-dict metadata/entities/slots or a non-string location/country raise
`AttributeError`, exactly where Python `.get`/`.strip` would. -/
def build_merged_context (nlu weather : JVal) : Except String JVal :=
  match nlu with
  | .obj nf =>
    match pyOr ((alookup nf "dialog_metadata").getD (.obj [])) (.obj []) with
    | .obj dm =>
      match pyOr ((alookup nf "entities").getD (.obj [])) (.obj []) with
      | .obj ent =>
        match pyOr ((alookup nf "slots").getD (.obj [])) (.obj []) with
        | .obj slots =>
          match weather with
          | .obj wf =>
            match pyOr ((alookup wf "location").getD .null)
                  (pyOr ((alookup ent "location").getD .null) (.str "")) with
            | .str locRaw =>
              match pyOr ((alookup wf "country").getD .null) (.str "") with
              | .str ctryRaw =>
                .ok (.obj [("user_query",
                              pyOr ((alookup dm "original_query").getD .null) (.str "")),
                           ("intent", (alookup nf "intent").getD .null),
                           ("location", .str (pyStrip (pyStripCommaSpace
                              (pyStrip locRaw ++ ", " ++ pyStrip ctryRaw)))),
                           ("date", (alookup ent "date").getD .null),
                           ("theme", (alookup slots "theme").getD .null),
                           ("weather_data", weather)])
              | _ => .error "AttributeError"
            | _ => .error "AttributeError"
          | _ => .error "AttributeError"
        | _ => .error "AttributeError"
      | _ => .error "AttributeError"
    | _ => .error "AttributeError"
  | _ => .error "AttributeError"

/-- The `city` expression of `generate_travel_response` (line 95). -/
def cityOf (nlu weather : JVal) : Except String String :=
  match weather with
  | .obj wf =>
    match pyOr (dget nlu "entities" .null) (.obj []) with
    | .obj ef =>
      match pyOr ((alookup wf "location").getD .null)
            (pyOr ((alookup ef "location").getD .null) (.str "unknown")) with
      | .str s => .ok (pyStrip (splitHeadComma s))
      | _ => .error "AttributeError"
    | _ => .error "AttributeError"
  | _ => .error "AttributeError"

/-- `generate_travel_response`: key resolution, sidecar load, context build,
one guarded LLM call.  Returns the result (or the propagated exception) and
whether the LLM call was reached. -/
def generate_travel_response (env : Env) (traceId : String)
    (fileContent : Except String JVal) (apiKeyArg : Option String) :
    Except String JVal × Bool :=
  let apiKey := orOS apiKeyArg (orOS env.openaiKey env.googleKey)
  if !truthyOS apiKey then (.error "No API key provided for chatbot", false)
  else
    match fileContent with
    | .error e => (.error e, false)
    | .ok root =>
      match extract_nlu_weather root with
      | .error e => (.error e, false)
      | .ok (nlu, weather) =>
        match build_merged_context nlu weather with
        | .error e => (.error e, false)
        | .ok merged =>
          match cityOf nlu weather with
          | .error e => (.error e, false)
          | .ok city =>
            let (text, errNote) :=
              match env.llm with
              | .ok t => (t, JVal.null)
              | .error e => ("", JVal.str ("chatbot_failed: " ++ e))
            (.ok (.obj [("trace_id", .str traceId),
                        ("city", .str city),
                        ("response_text", .str text),
                        ("merged_context", merged),
                        ("generated_at", .str env.genAt),
                        ("response_language", .str "en"),
                        ("tts", .null),
                        ("error", errNote)]), true)

/-! ## stt_helpers.py -/

/-- The underlying string of a value known to be a string (`""` otherwise;
used only where the source guarantees a string). -/
def asStrD (v : JVal) : String :=
  match v with
  | .str s => s
  | _ => ""

/-- `transcribe_with_azure`: credential guard, then the recognizer outcome
shaped as the returned dict. -/
def transcribe (env : Env) : Except String JVal :=
  if !env.azureCreds then
    .error "Azure credentials not set in AZURE_SPEECH_KEY / AZURE_SPEECH_REGION"
  else
    match env.azure with
    | .recognized t d =>
      .ok (.obj [("text", .str t), ("confidence", .null),
                 ("provider", .str "azure-speech"),
                 ("detected_language", optToJ d)])
    | .noMatch =>
      -- confidence 0.0 modelled as the integer 0
      .ok (.obj [("text", .str ""), ("confidence", .num 0),
                 ("provider", .str "azure-speech"),
                 ("detected_language", .null)])
    | .failure e => .error ("Azure STT failed: " ++ e)

/-- Result of one `process_trace` run: the returned record (or the raised
exception), the successful sidecar writes in order, the plain-text file
content when written, and the external calls made. -/
structure PTRun where
  ret : Except String (List (String × JVal))
  writes : List (List (String × JVal))
  txt : Option String
  calls : List ExtCall

/-- Attach the agent output to the record (lines 219-238): `agent_raw`
verbatim, then the casing-normalised `nlu`/`weather`. -/
def attachAgent (r : List (String × JVal)) (out : JVal) : List (String × JVal) :=
  let r1 := aset r "agent_raw" out
  match out with
  | .obj fs =>
    let r2 :=
      if hasKeyB fs "NLU" then aset r1 "nlu" ((alookup fs "NLU").getD .null)
      else aset r1 "nlu" ((alookup fs "nlu").getD .null)
    if hasKeyB fs "Weather" then aset r2 "weather" ((alookup fs "Weather").getD .null)
    else if hasKeyB fs "weather" then aset r2 "weather" ((alookup fs "weather").getD .null)
    else aset r2 "weather" .null
  | _ =>
    aset (aset r1 "nlu" (.obj [("error", .str "agent_returned_non_dict")]))
         "weather" (.obj [("error", .str "agent_returned_non_dict")])

/-- Agent failure handling (lines 240-246): warning, then error placeholders. -/
def agentFailAttach (r : List (String × JVal)) (e : String) : List (String × JVal) :=
  let r1 := appendWarning r ("agent_failed:" ++ e)
  let r2 := aset r1 "agent_raw" (.obj [("error", .str e)])
  let r3 := aset r2 "nlu" (.obj [("error", .str ("agent_failed:" ++ e))])
  aset r3 "weather" (.obj [("error", .str ("agent_failed:" ++ e))])

/-- The agent step of `process_trace` (lines 212-246): the guarded import,
the agent call, and the attach/failure handling, as a function of the record
so far and the agent query. -/
def agentPhase (env : Env) (r2 : List (String × JVal)) (q : String) :
    List (String × JVal) × List ExtCall :=
  match env.agentImportFail with
  | some e => (agentFailAttach r2 e, [])
  | none =>
    match travel_weather_agent env q with
    | (.ok out, cs) => (attachAgent r2 out, cs)
    | (.error e, cs) => (agentFailAttach r2 e, cs)

/-- `process_trace`: STT, conditional translation, checkpoint 1, transcript
file, agent attach, checkpoint 2. -/
def process_trace (env : Env) (trace : String) : PTRun :=
  if !env.audioExists then
    { ret := .error "trace_id audio not found", writes := [], txt := none, calls := [] }
  else
    match transcribe env with
    | .error e => { ret := .error e, writes := [], txt := none, calls := [] }
    | .ok stt =>
      let r0 : List (String × JVal) :=
        [("trace_id", .str trace),
         ("text", dget stt "text" .null),
         ("confidence", dget stt "confidence" .null),
         ("provider", dget stt "provider" .null),
         ("detected_language", dget stt "detected_language" .null),
         ("processed_at", .num env.nowEpoch)]
      let english0 := dget stt "text" .null
      -- `det = result.get("detected_language") or ""`; always a string here
      let det := asStrD (pyOr (dget stt "detected_language" .null) (.str ""))
      let isJa := strStartsWith (asciiLower det) "ja"
      let step : List (String × JVal) × JVal × List ExtCall :=
        if truthy english0 && isJa then
          match english0 with
          | .str tx =>
            match env.translateSvc tx with
            | .ok tr => (aset r0 "text_en" (.str tr), .str tr, [.translateCall tx])
            | .error e =>
              (appendWarning (aset r0 "text_en" .null) ("translation_failed:" ++ e),
               english0, [.translateCall tx])
          | _ => (aset r0 "text_en" english0, english0, [])  -- unreachable: truthy text is a string
        else (aset r0 "text_en" english0, english0, [])
      let r1 := step.1
      let english1 := step.2.1
      let tCalls := step.2.2
      match env.w1Fail with
      | some e => { ret := .error e, writes := [], txt := none, calls := tCalls }
      | none =>
        match env.txtFail with
        | some e => { ret := .error e, writes := [r1], txt := none, calls := tCalls }
        | none =>
          -- `tf.write(english_text if english_text else "")`
          let txtContent := if truthy english1 then jToPyStr english1 else ""
          let r2 := aset r1 "text_file" (.str ("uploads/" ++ trace ++ ".txt"))
          let textForAgent :=
            pyOr ((alookup r2 "text_en").getD .null)
                 (pyOr ((alookup r2 "text").getD .null) (.str ""))
          let q := jToPyStr textForAgent
          let agentOut := agentPhase env r2 q
          let r3 := agentOut.1
          let aCalls := agentOut.2
          match env.w2Fail with
          | some e =>
            { ret := .error e, writes := [r1], txt := some txtContent,
              calls := tCalls ++ aCalls }
          | none =>
            { ret := .ok r3, writes := [r1, r3], txt := some txtContent,
              calls := tCalls ++ aCalls }

/-- Result of one `background_process_trace` run: the successful sidecar
writes in order, an exception escaping the wrapper (only possible when the
failure-record write itself raises), and the external calls made. -/
structure BRun where
  writes : List (List (String × JVal))
  exc : Option String
  calls : List ExtCall

/-- The outer `except` of `background_process_trace` (lines 305-314): a
wholly new minimal failure record replaces the sidecar content. -/
def outerFail (env : Env) (trace : String) (ws : List (List (String × JVal)))
    (cs : List ExtCall) (e : String) : BRun :=
  let errRec : List (String × JVal) :=
    [("trace_id", .str trace), ("status", .str "failed"),
     ("error", .str e), ("processed_at", .num env.failEpoch)]
  match env.wFailFail with
  | some e2 => { writes := ws, exc := some e2, calls := cs }
  | none => { writes := ws ++ [errRec], exc := none, calls := cs }

/-- The inner `except` of `background_process_trace` (lines 295-303):
append the warning, set the partial-failure status, rewrite the sidecar;
a failure of that write propagates to the outer `except`. -/
def chatFailedWrite (env : Env) (trace : String) (result : List (String × JVal))
    (ws : List (List (String × JVal))) (cs : List ExtCall) (warnText : String) : BRun :=
  let r2 := aset (appendWarning result ("chatbot_failed:" ++ warnText))
                 "status" (.str "agent_done_chatbot_failed")
  match env.wChatFail with
  | some e2 => outerFail env trace ws cs e2
  | none => { writes := ws ++ [r2], exc := none, calls := cs }

/-- `result.setdefault("response", \x7b\x7d); result["response"].update(...)`.
`none` when `.update` would raise (a truthy non-dict `response`). -/
def mergeResponse (result : List (String × JVal)) (respNew : List (String × JVal)) :
    Option (List (String × JVal)) :=
  match alookup result "response" with
  | some (.obj old) =>
    some (aset result "response" (.obj (respNew.foldl (fun o kv => aset o kv.1 kv.2) old)))
  | some _ => none  -- setdefault keeps the existing non-dict; `.update` raises
  | none => some (aset result "response" (.obj respNew))

/-- `background_process_trace`: the pipeline, then response generation with
all its failure handling, per the nested try/except structure of the source
(lines 256-314). -/
def background_process_trace (env : Env) (trace : String) : BRun :=
  let p := process_trace env trace
  match p.ret with
  | .error e => outerFail env trace p.writes p.calls e
  | .ok result =>
    match env.chatbotImportFail with
    | some e => chatFailedWrite env trace result p.writes p.calls e
    | none =>
      let apiKey := orOS env.openaiKey env.googleKey
      let content : Except String JVal :=
        match env.sidecarReadFail with
        | some e => .error e
        | none => .ok (.obj result)  -- the file holds checkpoint 2 = `result`
      let g := generate_travel_response env trace content apiKey
      let cs := p.calls ++ (if g.2 then [ExtCall.llm] else [])
      match g.1 with
      | .error e => chatFailedWrite env trace result p.writes cs e
      | .ok bot =>
        let respNew : List (String × JVal) :=
          [("text", dget bot "response_text" .null),
           ("generated_at", dget bot "generated_at" .null),
           ("response_language", dget bot "response_language" .null),
           ("tts", dget bot "tts" .null),
           ("error", dget bot "error" .null)]
        match mergeResponse result respNew with
        | none => chatFailedWrite env trace result p.writes cs "AttributeError"
        | some r2 =>
          let r3 := aset r2 "status" (.str "done")
          match env.wDoneFail with
          | some e => chatFailedWrite env trace r3 p.writes cs e
          | none => { writes := p.writes ++ [r3], exc := none, calls := cs }

/-! ## Observability helpers over call logs -/

/-- Some `fetch_weather` invocation appears in the log. -/
def hasFetchwCall (cs : List ExtCall) : Bool :=
  cs.any fun c => match c with | .fetchw _ => true | _ => false

/-- Some `nlu_parser_travel` invocation with argument `q` appears in the log. -/
def hasNluParseCallWith (q : String) (cs : List ExtCall) : Bool :=
  cs.any fun c => match c with | .nluParse q' => q' = q | _ => false

/-- Some translator invocation appears in the log. -/
def hasTranslateCall (cs : List ExtCall) : Bool :=
  cs.any fun c => match c with | .translateCall _ => true | _ => false

/-- A geocoding-validation call with the given query and limit appears. -/
def hasGeoCall (q : String) (limit : Nat) (cs : List ExtCall) : Bool :=
  cs.any fun c => match c with | .geo q' l => q' = q && l = limit | _ => false

/-- A fuzzy-match call with the given arguments appears. -/
def hasFuzzyCall (raw : String) (cands : List String) (cutoff : Nat)
    (cs : List ExtCall) : Bool :=
  cs.any fun c =>
    match c with
    | .fuzzy r' cs' k' => r' = raw && cs' = cands && k' = cutoff
    | _ => false

/-! ## The field-preservation relation for sidecar writes -/

/-- The keys a later pipeline stage owns (may add or overwrite). -/
def ownedKeys : List String :=
  ["text_file", "agent_raw", "nlu", "weather", "warnings", "response", "status"]

/-- Sidecar write `b` extends write `a` without retracting anything: every
key of `a` is still a key of `b`, and any key outside the later stage
namespaces keeps its value. -/
def extendsOK (a b : List (String × JVal)) : Prop :=
  (∀ k, hasKeyB a k = true → hasKeyB b k = true) ∧
  (∀ k, ¬ k ∈ ownedKeys → hasKeyB a k = true → alookup b k = alookup a k)

/-- Some translator invocation with argument `t` appears in the log. -/
def hasTranslateCallWith (t : String) (cs : List ExtCall) : Bool :=
  cs.any fun c => match c with | .translateCall t' => t' = t | _ => false

/-- Characters acceptable in a location/country fragment for the general
Context Builder statement: no comma, no whitespace. -/
def okLocChars (s : String) : Bool :=
  s.toList.all fun c => !(c = ',' || wsChars.contains c)

/-! ## Concrete environments for witnesses and counterexamples -/

/-- A baseline environment: English recognition succeeds, no provider keys,
no filesystem failures, agent import fine, LLM fails.  Individual scenarios
override single fields. -/
def envBase : Env := {
  nlpLoaded := false
  ner := fun _ => none
  geo := fun _ _ => .error "conn"
  fuzzyBest := fun _ _ _ => none
  dateparse := fun _ => none
  nowIso := "2026-10-12T00:00:00+00:00"
  todayYmd := "2026-10-12"
  tomorrowYmd := "2026-10-13"
  owmKey := none
  wgeoSvc := fun _ _ => .error "conn"
  wcurSvc := fun _ _ => .error "conn"
  fmtEpochIso := fun _ => "1970-01-01T00:00:00+00:00"
  azureCreds := true
  azure := .recognized "weather in Paris today" (some "en-US")
  translateSvc := fun _ => .error "no translator credentials"
  nowEpoch := 100
  audioExists := true
  w1Fail := none
  txtFail := none
  agentImportFail := none
  w2Fail := none
  chatbotImportFail := none
  openaiKey := none
  googleKey := none
  llm := .error "no key"
  genAt := "2026-10-12T00:00:00Z"
  sidecarReadFail := none
  wDoneFail := none
  wChatFail := none
  wFailFail := none
  failEpoch := 200 }

/-- Checkpoint 1 succeeds, then the transcript-file write raises: the
pipeline aborts after durably writing STT results. -/
def envC1 : Env := { envBase with txtFail := some "disk full" }

/-- A geocoding hit with the `name` field missing (defaulted to the empty
string by the `.get` call in the code) and a fuzzy matcher that accepts the lone
candidate `", BA"` (its partial-ratio score against `"BA"` is maximal,
well above the 70 cutoff). -/
def envC4 : Env :=
  { envBase with
    nlpLoaded := true
    ner := fun _ => some "BA"
    geo := fun _ _ => .ok [.obj [("country", .str "BA")]]
    fuzzyBest := fun raw cands cutoff =>
      if raw = "BA" && cands = [", BA"] && cutoff = 70 then some ", BA" else none }

/-- The recognizer reports recognized speech with empty text and a Japanese
detected language. -/
def envC6 : Env := { envBase with azure := .recognized "" (some "ja-JP") }

/-- Japanese recognition with a working translator. -/
def envC6w : Env :=
  { envBase with
    azure := .recognized "ashita no tenki" (some "ja-JP")
    translateSvc := fun _ => .ok "weather tomorrow" }

/-- NER finds `Paris`; the geocoder returns one well-formed hit; the fuzzy
matcher picks the first candidate. -/
def envC7 : Env :=
  { envBase with
    nlpLoaded := true
    ner := fun _ => some "Paris"
    geo := fun _ _ => .ok [.obj [("name", .str "Paris"), ("country", .str "FR")]]
    fuzzyBest := fun _ cands _ => if cands.isEmpty then none else some (cands.headD "") }

/-- An environment with an LLM API key available. -/
def envKeyed : Env := { envBase with googleKey := some "gk" }

/-- The record returned by the baseline pipeline run for trace `t1`. -/
def c1procres : List (String × JVal) :=
  ((process_trace envBase "t1").ret).toOption.getD []

/-- The record returned by the baseline pipeline run for trace `t2`. -/
def c2res : List (String × JVal) :=
  ((process_trace envBase "t2").ret).toOption.getD []

/-- A well-formed minimal sidecar for the response generator. -/
def c3file : JVal :=
  .obj [("nlu", .obj [("entities", .obj [("location", .str "Paris")])]),
        ("weather", .obj [("location", .str "Paris"), ("country", .str "FR")])]

/-- The response-generator output on `c3file` with a key but a failing LLM. -/
def c3out : JVal :=
  ((generate_travel_response envBase "t3w" (.ok c3file) (some "sk-test")).1).toOption.getD .null

/-- A failure-status sidecar record: no nlu, no weather, no agent_raw. -/
def c10root : JVal :=
  .obj [("trace_id", .str "t10"), ("status", .str "failed"),
        ("error", .str "boom"), ("processed_at", .num 1)]

/-! ## Association-list lemmas -/

theorem alookup_aset_self (fs : List (String × JVal)) (k : String) (v : JVal) :
    alookup (aset fs k v) k = some v := by
  induction fs with
  | nil => simp [aset, alookup]
  | cons kv rest ih =>
    by_cases h : kv.1 = k
    · simp [aset, h, alookup]
    · simp [aset, h, alookup, ih]

theorem alookup_aset_ne (fs : List (String × JVal)) (k k' : String) (v : JVal)
    (h : k' ≠ k) : alookup (aset fs k v) k' = alookup fs k' := by
  induction fs with
  | nil => simp [aset, alookup, Ne.symm h]
  | cons kv rest ih =>
    by_cases hk : kv.1 = k
    · subst hk
      simp [aset, alookup, Ne.symm h]
    · simp [aset, hk, alookup, ih]

theorem hasKeyB_aset_of (fs : List (String × JVal)) (k k' : String) (v : JVal)
    (h : hasKeyB fs k' = true) : hasKeyB (aset fs k v) k' = true := by
  by_cases hk : k' = k
  · subst hk
    simp [hasKeyB, alookup_aset_self]
  · simpa [hasKeyB, alookup_aset_ne fs k k' v hk] using h

theorem extendsOK_refl (a : List (String × JVal)) : extendsOK a a :=
  ⟨fun _ h => h, fun _ _ _ => rfl⟩

theorem extendsOK_trans {a b c : List (String × JVal)}
    (h1 : extendsOK a b) (h2 : extendsOK b c) : extendsOK a c := by
  refine ⟨fun k hk => h2.1 k (h1.1 k hk), fun k ho hk => ?_⟩
  rw [h2.2 k ho (h1.1 k hk), h1.2 k ho hk]

theorem extendsOK_aset {a : List (String × JVal)} {k : String} (v : JVal)
    (h : k ∈ ownedKeys) : extendsOK a (aset a k v) := by
  refine ⟨fun k' hk' => hasKeyB_aset_of a k k' v hk', fun k' ho hk' => ?_⟩
  have hne : k' ≠ k := fun he => ho (he ▸ h)
  exact alookup_aset_ne a k k' v hne

theorem extendsOK_appendWarning (a : List (String × JVal)) (w : String) :
    extendsOK a (appendWarning a w) := by
  unfold appendWarning
  have hw : "warnings" ∈ ownedKeys := by simp [ownedKeys]
  split
  · exact extendsOK_aset _ hw
  · exact extendsOK_refl a
  · exact extendsOK_aset _ hw

theorem extendsOK_aset3 (r : List (String × JVal)) (k1 k2 k3 : String)
    (v1 v2 v3 : JVal) (h1 : k1 ∈ ownedKeys) (h2 : k2 ∈ ownedKeys)
    (h3 : k3 ∈ ownedKeys) :
    extendsOK r (aset (aset (aset r k1 v1) k2 v2) k3 v3) :=
  extendsOK_trans (extendsOK_trans (extendsOK_aset v1 h1) (extendsOK_aset v2 h2))
    (extendsOK_aset v3 h3)

theorem extendsOK_attachAgent (r : List (String × JVal)) (out : JVal) :
    extendsOK r (attachAgent r out) := by
  have ha : "agent_raw" ∈ ownedKeys := by simp [ownedKeys]
  have hn : "nlu" ∈ ownedKeys := by simp [ownedKeys]
  have hw : "weather" ∈ ownedKeys := by simp [ownedKeys]
  cases out <;> simp only [attachAgent] <;>
    first
      | exact extendsOK_aset3 _ _ _ _ _ _ _ ha hn hw
      | (split <;> split <;>
          first
            | exact extendsOK_aset3 _ _ _ _ _ _ _ ha hn hw
            | (split <;> exact extendsOK_aset3 _ _ _ _ _ _ _ ha hn hw))

theorem extendsOK_agentFailAttach (r : List (String × JVal)) (e : String) :
    extendsOK r (agentFailAttach r e) := by
  have ha : "agent_raw" ∈ ownedKeys := by simp [ownedKeys]
  have hn : "nlu" ∈ ownedKeys := by simp [ownedKeys]
  have hw : "weather" ∈ ownedKeys := by simp [ownedKeys]
  exact extendsOK_trans (extendsOK_appendWarning r _)
    (extendsOK_aset3 _ _ _ _ _ _ _ ha hn hw)

theorem extendsOK_agentPhase (env : Env) (r2 : List (String × JVal)) (q : String)
    (base : List (String × JVal)) (h : extendsOK base r2) :
    extendsOK base (agentPhase env r2 q).1 := by
  unfold agentPhase
  split
  · exact extendsOK_trans h (extendsOK_agentFailAttach _ _)
  · split
    · exact extendsOK_trans h (extendsOK_attachAgent _ _)
    · exact extendsOK_trans h (extendsOK_agentFailAttach _ _)

/-- Structure of a successful `process_trace` run: exactly the two
checkpoint writes, the second being the returned record, and checkpoint 2
only adds fields / overwrites stage-owned keys relative to checkpoint 1. -/
theorem process_ret_ok_spec (env : Env) (trace : String) (r : List (String × JVal))
    (h : (process_trace env trace).ret = .ok r) :
    (process_trace env trace).writes.Chain' extendsOK ∧
    (process_trace env trace).writes.getLast? = some r := by
  have htf : "text_file" ∈ ownedKeys := by simp [ownedKeys]
  cases hA : env.audioExists with
  | false => simp [process_trace, hA] at h
  | true =>
    cases hT : transcribe env with
    | error e => simp [process_trace, hA, hT] at h
    | ok stt =>
      cases hW1 : env.w1Fail with
      | some e => simp [process_trace, hA, hT, hW1] at h
      | none =>
        cases hTx : env.txtFail with
        | some e => simp [process_trace, hA, hT, hW1, hTx] at h
        | none =>
          cases hW2 : env.w2Fail with
          | some e => simp [process_trace, hA, hT, hW1, hTx, hW2] at h
          | none =>
            simp only [process_trace, hA, hT, hW1, hTx, hW2] at h ⊢
            simp at h ⊢
            exact ⟨extendsOK_agentPhase env _ _ _ (extendsOK_aset _ htf), h⟩

theorem chain_append_one {ws : List (List (String × JVal))} {r x : List (String × JVal)}
    (hch : ws.Chain' extendsOK) (hlast : ws.getLast? = some r) (hx : extendsOK r x) :
    (ws ++ [x]).Chain' extendsOK := by
  apply List.chain'_append.2
  refine ⟨hch, List.chain'_singleton x, ?_⟩
  intro a ha b hb
  rw [hlast] at ha
  simp only [Option.mem_def, Option.some.injEq] at ha
  simp only [List.head?_cons, Option.mem_def, Option.some.injEq] at hb
  subst ha
  subst hb
  exact hx

theorem extendsOK_mergeResponse {r respNew r2 : List (String × JVal)}
    (h : mergeResponse r respNew = some r2) : extendsOK r r2 := by
  have hr : "response" ∈ ownedKeys := by simp [ownedKeys]
  unfold mergeResponse at h
  split at h
  · exact (Option.some.injEq _ _ ▸ h) ▸ extendsOK_aset _ hr
  · exact absurd h (by simp)
  · exact (Option.some.injEq _ _ ▸ h) ▸ extendsOK_aset _ hr

theorem extendsOK_chatFinal (r : List (String × JVal)) (w : String) :
    extendsOK r (aset (appendWarning r ("chatbot_failed:" ++ w))
      "status" (.str "agent_done_chatbot_failed")) := by
  have hs : "status" ∈ ownedKeys := by simp [ownedKeys]
  exact extendsOK_trans (extendsOK_appendWarning r _) (extendsOK_aset _ hs)

/-- When the pipeline itself succeeded and the chatbot-failed write does not
raise, every sidecar write of the background run extends the previous one. -/
theorem background_writes_chain (env : Env) (trace : String) (r : List (String × JVal))
    (hok : (process_trace env trace).ret = .ok r)
    (hchat : env.wChatFail = none) :
    (background_process_trace env trace).writes.Chain' extendsOK := by
  obtain ⟨hch, hlast⟩ := process_ret_ok_spec env trace r hok
  have hs : "status" ∈ ownedKeys := by simp [ownedKeys]
  have hfin : ∀ x, extendsOK r x →
      ((process_trace env trace).writes ++ [x]).Chain' extendsOK :=
    fun _ hx => chain_append_one hch hlast hx
  simp only [background_process_trace, hok]
  cases hCI : env.chatbotImportFail with
  | some e =>
    simp only [chatFailedWrite, hchat]
    exact hfin _ (extendsOK_chatFinal r e)
  | none =>
    cases hG : (generate_travel_response env trace
        (match env.sidecarReadFail with
         | some e => .error e
         | none => .ok (.obj r)) (orOS env.openaiKey env.googleKey)).1 with
    | error e =>
      simp only [hG, chatFailedWrite, hchat]
      exact hfin _ (extendsOK_chatFinal r e)
    | ok bot =>
      simp only [hG]
      cases hM : mergeResponse r
          [("text", dget bot "response_text" .null),
           ("generated_at", dget bot "generated_at" .null),
           ("response_language", dget bot "response_language" .null),
           ("tts", dget bot "tts" .null),
           ("error", dget bot "error" .null)] with
      | none =>
        simp only [hM, chatFailedWrite, hchat]
        exact hfin _ (extendsOK_chatFinal r "AttributeError")
      | some r2 =>
        simp only [hM]
        have hr2 : extendsOK r r2 := extendsOK_mergeResponse hM
        cases hD : env.wDoneFail with
        | some e =>
          simp only [hD, chatFailedWrite, hchat]
          exact hfin _ (extendsOK_trans (extendsOK_trans hr2 (extendsOK_aset _ hs))
            (extendsOK_chatFinal _ e))
        | none =>
          simp only [hD]
          exact hfin _ (extendsOK_trans hr2 (extendsOK_aset _ hs))

/-! ## Claims -/

/-- C5: the Weather Fetcher called with a null or empty location returns
exactly the dict `error: No location provided`; called with a non-empty
location while the weather-provider API key is absent it returns exactly
`error: OPENWEATHER_API_KEY not set`.  In both cases the call log holds
only the entry marker (no external call is made) and the result is `.ok`
(nothing is raised). -/
theorem c5_fetch_weather_guards (env : Env) :
    fetch_weather env .null =
      (.ok (.obj [("error", .str "No location provided")]), [.fetchw .null]) ∧
    fetch_weather env (.str "") =
      (.ok (.obj [("error", .str "No location provided")]), [.fetchw (.str "")]) ∧
    (∀ s : String, s ≠ "" → truthyOS env.owmKey = false →
      fetch_weather env (.str s) =
        (.ok (.obj [("error", .str "OPENWEATHER_API_KEY not set")]),
         [.fetchw (.str s)])) := by
  refine ⟨rfl, rfl, fun s hs hk => ?_⟩
  unfold fetch_weather
  simp [truthy, hs, hk]

/-- C5 witness: a concrete non-empty location with no API key configured. -/
theorem c5_witness :
    fetch_weather envBase (.str "Paris") =
      (.ok (.obj [("error", .str "OPENWEATHER_API_KEY not set")]),
       [.fetchw (.str "Paris")]) :=
  (c5_fetch_weather_guards envBase).2.2 "Paris" (by decide) rfl

/-- C8: the literal date fallback applies only when the natural-language
date parser resolved nothing; a query containing "today" then yields the
current UTC date, one containing "tomorrow" (and not "today") the next
day; a parsed date suppresses the fallback. -/
theorem c8_date_fallback (env : Env) (q : String) :
    (∀ d, env.dateparse q = some d →
      dget (dget (nlu_parser_travel env q).1 "entities" (.obj [])) "date" .null =
        .str d) ∧
    (env.dateparse q = none → hasSubStr "today" (asciiLower q) = true →
      dget (dget (nlu_parser_travel env q).1 "entities" (.obj [])) "date" .null =
        .str env.todayYmd) ∧
    (env.dateparse q = none → hasSubStr "today" (asciiLower q) = false →
      hasSubStr "tomorrow" (asciiLower q) = true →
      dget (dget (nlu_parser_travel env q).1 "entities" (.obj [])) "date" .null =
        .str env.tomorrowYmd) := by
  rcases hE : extract_location env q with ⟨loc, c1⟩
  refine ⟨fun d hd => ?_, fun hp ht => ?_, fun hp ht htm => ?_⟩
  · simp [nlu_parser_travel, hE, hd, dget, alookup, optToJ]
  · simp [nlu_parser_travel, hE, hp, ht, dget, alookup, optToJ]
  · simp [nlu_parser_travel, hE, hp, ht, htm, dget, alookup, optToJ]

/-- C8 witness: the parser resolves nothing and the query contains
"today". -/
theorem c8_witness :
    dget (dget (nlu_parser_travel envBase "today please").1 "entities" (.obj []))
      "date" .null = .str "2026-10-12" :=
  (c8_date_fallback envBase "today please").2.1 rfl rfl

theorem hasFetchwCall_append (a b : List ExtCall) :
    hasFetchwCall (a ++ b) = (hasFetchwCall a || hasFetchwCall b) := by
  simp [hasFetchwCall, List.any_append]

theorem hasFetchwCall_steps (env : Env) (q : String) :
    hasFetchwCall (locSteps12 env q).2 = false := by
  simp only [locSteps12]
  split <;> rfl

theorem hasFetchwCall_gcl (env : Env) (loc : String) :
    hasFetchwCall (get_candidate_locations env loc).2 = false := by
  unfold get_candidate_locations
  split
  · split <;> rfl
  · rfl

theorem hasFetchwCall_extract (env : Env) (q : String) :
    hasFetchwCall (extract_location env q).2 = false := by
  rcases hL : locSteps12 env q with ⟨l2, c1⟩
  have hc1 : hasFetchwCall c1 = false := by
    have h := hasFetchwCall_steps env q
    rw [hL] at h
    exact h
  unfold extract_location
  rw [hL]
  cases l2 with
  | none => exact hc1
  | some raw =>
    by_cases hr : raw = ""
    · simp only [hr, if_pos rfl]
      exact hc1
    · rcases hG : get_candidate_locations env raw with ⟨cands, c2⟩
      have hc2 : hasFetchwCall c2 = false := by
        have h := hasFetchwCall_gcl env raw
        rw [hG] at h
        exact h
      simp only [if_neg hr, hG]
      split
      · rw [hasFetchwCall_append, hc1, hc2]
        rfl
      · split <;>
        · rw [hasFetchwCall_append, hasFetchwCall_append, hc1, hc2]
          rfl

theorem hasFetchwCall_nlu (env : Env) (q : String) :
    hasFetchwCall (nlu_parser_travel env q).2 = false := by
  rcases hE : extract_location env q with ⟨loc, c1⟩
  have h := hasFetchwCall_extract env q
  rw [hE] at h
  simp [nlu_parser_travel, hE, hasFetchwCall] at h ⊢
  exact h

theorem hasNluParse_nlu (env : Env) (q : String) :
    hasNluParseCallWith q (nlu_parser_travel env q).2 = true := by
  rcases hE : extract_location env q with ⟨loc, c1⟩
  simp [nlu_parser_travel, hE, hasNluParseCallWith]

theorem hasFetchwCall_fetch (env : Env) (loc : JVal) :
    hasFetchwCall (fetch_weather env loc).2 = true := by
  simp only [fetch_weather]
  split
  · rfl
  · split
    · rfl
    · split
      · rfl
      · rfl
      · split
        · split
          · split <;> rfl
          · rfl
        · rfl

/-- C4 counterexample: with a geocoding hit whose `name` field is missing
(the empty-string `.get` default in the code) and a fuzzy match on the lone
candidate `", BA"`, the extracted `nlu.entities.location` is the empty
string — non-null — yet the Weather Fetcher is never invoked and the agent
returns `weather = error: no_location_extracted`.  This refutes the claim
that the fetcher is invoked if and only if the location is non-null. -/
theorem c4_counterexample :
    dget (dget (nlu_parser_travel envC4 "BA").1 "entities" (.obj [])) "location" .null =
      .str "" ∧
    JVal.str "" ≠ JVal.null ∧
    hasFetchwCall (travel_weather_agent envC4 "BA").2 = false ∧
    (travel_weather_agent envC4 "BA").1 =
      .ok (.obj [("nlu", (nlu_parser_travel envC4 "BA").1),
                 ("weather", .obj [("error", .str "no_location_extracted")])]) := by
  refine ⟨rfl, by simp, rfl, rfl⟩

/-- C4 (amended): the Travel Agent always runs the Entity Extractor, and
invokes the Weather Fetcher if and only if the extracted
`nlu.entities.location` is truthy (non-null and non-empty); when it is not,
the agent returns `weather = error: no_location_extracted` without calling
the Weather Fetcher. -/
theorem c4_agent_guard (env : Env) (q : String) :
    hasNluParseCallWith q (travel_weather_agent env q).2 = true ∧
    hasFetchwCall (travel_weather_agent env q).2 =
      truthy (dget (dget (nlu_parser_travel env q).1 "entities" (.obj []))
        "location" .null) ∧
    (truthy (dget (dget (nlu_parser_travel env q).1 "entities" (.obj []))
        "location" .null) = false →
      (travel_weather_agent env q).1 =
        .ok (.obj [("nlu", (nlu_parser_travel env q).1),
                   ("weather", .obj [("error", .str "no_location_extracted")])])) := by
  rcases hN : nlu_parser_travel env q with ⟨nlu, c1⟩
  have hc1 : hasFetchwCall c1 = false := by
    have h := hasFetchwCall_nlu env q
    rw [hN] at h
    exact h
  have hn1 : hasNluParseCallWith q c1 = true := by
    have h := hasNluParse_nlu env q
    rw [hN] at h
    exact h
  simp only [travel_weather_agent, hN]
  cases hT : truthy (dget (dget nlu "entities" (.obj [])) "location" .null) with
  | false =>
    simp only [hT, Bool.false_eq_true, if_false]
    refine ⟨hn1, hc1, ?_⟩
    first
      | exact fun _ => rfl
      | trivial
  | true =>
    simp only [hT, if_true]
    rcases hF : fetch_weather env (dget (dget nlu "entities" (.obj [])) "location" .null)
      with ⟨ret, c2⟩
    have hc2 : hasFetchwCall c2 = true := by
      have h := hasFetchwCall_fetch env (dget (dget nlu "entities" (.obj [])) "location" .null)
      rw [hF] at h
      exact h
    cases ret with
    | ok w =>
      refine ⟨?_, ?_, fun hcon => by simp at hcon⟩
      · simp [hasNluParseCallWith, List.any_append] at hn1 ⊢
        exact Or.inl hn1
      · rw [hasFetchwCall_append, hc1, hc2]
        rfl
    | error e =>
      refine ⟨?_, ?_, fun hcon => by simp at hcon⟩
      · simp [hasNluParseCallWith, List.any_append] at hn1 ⊢
        exact Or.inl hn1
      · rw [hasFetchwCall_append, hc1, hc2]
        rfl

/-- C4 witness: a query with no extractable location leads to the
`no_location_extracted` result without any Weather Fetcher call. -/
theorem c4_witness :
    hasFetchwCall (travel_weather_agent envBase "just rain").2 = false ∧
    (travel_weather_agent envBase "just rain").1 =
      .ok (.obj [("nlu", (nlu_parser_travel envBase "just rain").1),
                 ("weather", .obj [("error", .str "no_location_extracted")])]) := by
  have h := c4_agent_guard envBase "just rain"
  refine ⟨?_, h.2.2 rfl⟩
  rw [h.2.1]
  rfl

/-- C7: whenever the NER/regex steps produce a candidate location string,
the Entity Extractor queries the geocoding service with that string and
limit 5; with no candidates (including transport failure) it returns the
raw string unmodified; with candidates it fuzzy-matches the raw string
against them at cutoff 70, returning only the city portion (before the
comma) of a match and the raw string when nothing reaches the cutoff. -/
theorem c7_location_validation (env : Env) (q raw : String)
    (h12 : (locSteps12 env q).1 = some raw) (hne : raw ≠ "") :
    hasGeoCall raw 5 (extract_location env q).2 = true ∧
    (∀ e, env.geo raw 5 = .error e → (extract_location env q).1 = some raw) ∧
    (∀ hits cs, env.geo raw 5 = .ok hits → candsOf hits = some cs →
      (cs = [] → (extract_location env q).1 = some raw) ∧
      (cs ≠ [] →
        hasFuzzyCall raw cs 70 (extract_location env q).2 = true ∧
        (∀ m, env.fuzzyBest raw cs 70 = some m →
          (extract_location env q).1 = some (splitHeadComma m)) ∧
        (env.fuzzyBest raw cs 70 = none →
          (extract_location env q).1 = some raw))) := by
  rcases hL : locSteps12 env q with ⟨l2, c1⟩
  rw [hL] at h12
  simp only at h12
  subst h12
  simp only [extract_location, hL, if_neg hne]
  refine ⟨?_, fun e he => ?_, fun hits cs hg hm => ⟨fun hcs => ?_, fun hcs => ?_⟩⟩
  · simp only [get_candidate_locations]
    cases hg : env.geo raw 5 with
    | error e => simp [hg, hasGeoCall, List.any_append]
    | ok hits =>
      cases hm : candsOf hits with
      | none => simp [hg, hm, hasGeoCall, List.any_append]
      | some cs =>
        by_cases hc : cs.isEmpty
        · simp [hg, hm, hc, hasGeoCall, List.any_append]
        · cases hf : env.fuzzyBest raw cs 70 <;>
            simp [hg, hm, hc, hf, hasGeoCall, List.any_append]
  · simp [get_candidate_locations, he]
  · simp [get_candidate_locations, hg, hm, hcs]
  · have hc : cs.isEmpty = false := by
      cases cs with
      | nil => exact absurd rfl hcs
      | cons a t => rfl
    simp only [get_candidate_locations, hg, hm, hc, Bool.false_eq_true, if_false]
    refine ⟨?_, fun m hf => ?_, fun hf => ?_⟩
    · cases hf : env.fuzzyBest raw cs 70 <;>
        simp [hg, hm, hf, hasFuzzyCall, List.any_append]
    · simp [hg, hm, hf]
    · simp [hg, hm, hf]

/-- C7 witness: NER finds `Paris`, the geocoder returns one hit, the fuzzy
matcher selects `Paris, FR`, and only the city portion is returned. -/
theorem c7_witness :
    hasGeoCall "Paris" 5 (extract_location envC7 "weather in Paris").2 = true ∧
    (extract_location envC7 "weather in Paris").1 = some "Paris" := by
  have h := c7_location_validation envC7 "weather in Paris" "Paris" rfl (by decide)
  refine ⟨h.1, ?_⟩
  have h2 := (h.2.2 [.obj [("name", .str "Paris"), ("country", .str "FR")]]
    ["Paris, FR"] rfl rfl).2 (by decide)
  exact h2.2.1 "Paris, FR" rfl

theorem orOS_none_left (b : Option String) : orOS none b = b := rfl

/-- C10: `generate_travel_response` raises before any LLM call (the flag in
the result is `false`) when no API key is available, and — given a key —
when the sidecar record has no truthy `nlu` either at top level or under
`agent_raw` (resp. no truthy `weather`); so a failed-status sidecar polled
through the response endpoint yields a raised error, not a payload. -/
theorem c10_generate_raises (env : Env) (traceId : String)
    (fileC : Except String JVal) (rf af : List (String × JVal)) :
    (truthyOS (orOS env.openaiKey env.googleKey) = false →
      generate_travel_response env traceId fileC none =
        (.error "No API key provided for chatbot", false)) ∧
    (truthyOS (orOS env.openaiKey env.googleKey) = true →
      truthy ((alookup rf "nlu").getD .null) = false →
      (alookup rf "agent_raw").getD (.obj []) = .obj af →
      truthy ((alookup af "nlu").getD .null) = false →
      generate_travel_response env traceId (.ok (.obj rf)) none =
        (.error "No NLU found in JSON", false)) ∧
    (truthyOS (orOS env.openaiKey env.googleKey) = true →
      truthy ((alookup rf "nlu").getD .null) = true →
      truthy ((alookup rf "weather").getD .null) = false →
      (alookup rf "agent_raw").getD (.obj []) = .obj af →
      truthy ((alookup af "weather").getD .null) = false →
      generate_travel_response env traceId (.ok (.obj rf)) none =
        (.error "No weather found in JSON", false)) := by
  refine ⟨fun hk => ?_, fun hk hn har han => ?_, fun hk hn hw har haw => ?_⟩
  · simp [generate_travel_response, orOS_none_left, hk]
  · simp [generate_travel_response, extract_nlu_weather, orOS_none_left,
      hk, hn, har, han]
    by_cases hw0 : truthy ((alookup rf "weather").getD JVal.null) = true
    · simp [hw0]
    · simp [hw0]
  · simp [generate_travel_response, extract_nlu_weather, orOS_none_left,
      hk, hn, hw, har, haw]

/-- C10 witness: a failed-status sidecar (no nlu/weather/agent_raw) with an
API key available raises the no-NLU error before any LLM call; without any
key the raise happens even earlier. -/
theorem c10_witness :
    generate_travel_response envKeyed "t10" (.ok c10root) none =
      (.error "No NLU found in JSON", false) ∧
    generate_travel_response envBase "t10b" (.ok c10root) none =
      (.error "No API key provided for chatbot", false) := by
  have h := c10_generate_raises envKeyed "t10" (.ok c10root)
    [("trace_id", .str "t10"), ("status", .str "failed"),
     ("error", .str "boom"), ("processed_at", .num 1)] []
  have h2 := c10_generate_raises envBase "t10b" (.ok c10root)
    [("trace_id", .str "t10"), ("status", .str "failed"),
     ("error", .str "boom"), ("processed_at", .num 1)] []
  exact ⟨h.2.1 rfl rfl rfl rfl, h2.1 rfl⟩

/-- C3 counterexample: with no API key available anywhere,
`generate_travel_response` raises instead of returning a result object,
refuting "for every input, returns a result object rather than raising". -/
theorem c3_counterexample :
    (generate_travel_response envBase "t3" (.ok c3file) none).1 =
      .error "No API key provided for chatbot" := rfl

/-- C3 (amended): the LLM call itself is never fatal to the caller:
whenever `generate_travel_response` raises, the LLM was never called
(failures before the call — missing API key, unreadable sidecar, missing
nlu/weather — do propagate), and whenever it returns while the LLM call
failed, the result carries empty response text together with a descriptive
`chatbot_failed` error note. -/
theorem c3_llm_nonfatal (env : Env) (traceId : String)
    (fileC : Except String JVal) (arg : Option String) :
    (∀ e, (generate_travel_response env traceId fileC arg).1 = .error e →
      (generate_travel_response env traceId fileC arg).2 = false) ∧
    (∀ out e, (generate_travel_response env traceId fileC arg).1 = .ok out →
      env.llm = .error e →
      dget out "response_text" .null = .str "" ∧
      dget out "error" .null = .str ("chatbot_failed: " ++ e)) := by
  cases hA : truthyOS (orOS arg (orOS env.openaiKey env.googleKey)) with
  | false =>
    refine ⟨fun e h => ?_, fun out e hout hllm => ?_⟩
    · simp [generate_travel_response, hA]
    · simp [generate_travel_response, hA] at hout
  | true =>
    cases hF : fileC with
    | error fe =>
      refine ⟨fun e h => ?_, fun out e hout hllm => ?_⟩
      · simp [generate_travel_response, hA, hF]
      · simp [generate_travel_response, hA, hF] at hout
    | ok root =>
      cases hE : extract_nlu_weather root with
      | error ee =>
        refine ⟨fun e h => ?_, fun out e hout hllm => ?_⟩
        · simp [generate_travel_response, hA, hF, hE]
        · simp [generate_travel_response, hA, hF, hE] at hout
      | ok pw =>
        obtain ⟨nlu, weather⟩ := pw
        cases hB : build_merged_context nlu weather with
        | error be =>
          refine ⟨fun e h => ?_, fun out e hout hllm => ?_⟩
          · simp [generate_travel_response, hA, hF, hE, hB]
          · simp [generate_travel_response, hA, hF, hE, hB] at hout
        | ok merged =>
          cases hC : cityOf nlu weather with
          | error ce =>
            refine ⟨fun e h => ?_, fun out e hout hllm => ?_⟩
            · simp [generate_travel_response, hA, hF, hE, hB, hC]
            · simp [generate_travel_response, hA, hF, hE, hB, hC] at hout
          | ok city =>
            refine ⟨fun e h => ?_, fun out e hout hllm => ?_⟩
            · simp [generate_travel_response, hA, hF, hE, hB, hC] at h
            · have hgen : (generate_travel_response env traceId (.ok root) arg).1 =
                  .ok (JVal.obj [("trace_id", .str traceId), ("city", .str city),
                    ("response_text", .str ""), ("merged_context", merged),
                    ("generated_at", .str env.genAt), ("response_language", .str "en"),
                    ("tts", .null), ("error", .str ("chatbot_failed: " ++ e))]) := by
                simp [generate_travel_response, hA, hE, hB, hC, hllm]
              rw [hgen] at hout
              injection hout with hout
              subst hout
              simp [dget, alookup]

/-- C3 witness: with an API key and a well-formed sidecar but a failing
LLM call, the generator returns empty text and the error note. -/
theorem c3_witness :
    dget c3out "response_text" .null = .str "" ∧
    dget c3out "error" .null = .str ("chatbot_failed: " ++ "no key") :=
  (c3_llm_nonfatal envBase "t3w" (.ok c3file) (some "sk-test")).2
    c3out "no key" rfl rfl

/-- C1 counterexample: checkpoint 1 is durably written, then the
transcript-file write raises; the background wrapper replaces the sidecar
with the minimal failure record, which drops the previously written `text`
field — so not every subsequent sidecar write preserves previously written
fields. -/
theorem c1_counterexample :
    ¬ (background_process_trace envC1 "t1c").writes.Chain'
        (fun a b => ∀ k, hasKeyB a k = true → hasKeyB b k = true) := by
  intro h
  have hw : (background_process_trace envC1 "t1c").writes =
      [[("trace_id", .str "t1c"), ("text", .str "weather in Paris today"),
        ("confidence", .null), ("provider", .str "azure-speech"),
        ("detected_language", .str "en-US"), ("processed_at", .num 100),
        ("text_en", .str "weather in Paris today")],
       [("trace_id", .str "t1c"), ("status", .str "failed"),
        ("error", .str "disk full"), ("processed_at", .num 200)]] := rfl
  rw [hw] at h
  have h2 := (List.chain'_cons.mp h).1 "text" rfl
  simp [hasKeyB, alookup] at h2

/-- C1 (amended): as long as the Transcription Pipeline itself returns
(and the partial-failure rewrite does not itself raise), every later
sidecar write preserves all previously written fields, later stages only
adding fields or overwriting their own namespace (text_file, agent_raw,
nlu, weather, warnings, response, status).  The exception forced by the
counterexample is the failure write of the background wrapper, which replaces
the record wholesale when the pipeline raised. -/
theorem c1_no_retraction (env : Env) (trace : String) (r : List (String × JVal))
    (hok : (process_trace env trace).ret = .ok r)
    (hchat : env.wChatFail = none) :
    (background_process_trace env trace).writes.Pairwise extendsOK := by
  haveI : IsTrans (List (String × JVal)) extendsOK :=
    ⟨fun _ _ _ h1 h2 => extendsOK_trans h1 h2⟩
  exact List.chain'_iff_pairwise.mp (background_writes_chain env trace r hok hchat)

/-- C1 witness: a full baseline run (checkpoint 1, checkpoint 2, and the
chatbot-failed rewrite) is pairwise field-preserving. -/
theorem c1_witness :
    (background_process_trace envBase "t1").writes.Pairwise extendsOK :=
  c1_no_retraction envBase "t1" c1procres rfl rfl

theorem alookup_appendWarning_ne (r : List (String × JVal)) (w k : String)
    (h : k ≠ "warnings") : alookup (appendWarning r w) k = alookup r k := by
  unfold appendWarning
  split
  · exact alookup_aset_ne _ _ _ _ h
  · rfl
  · exact alookup_aset_ne _ _ _ _ h

/-- C2: when the pipeline succeeded and response generation raises, the
background wrapper appends a `chatbot_failed` warning, sets the status to
`agent_done_chatbot_failed`, rewrites the sidecar, and the written record
keeps every field gathered before the failure (same keys, and unchanged
values outside warnings/status). -/
theorem c2_chatbot_failure_preserves (env : Env) (trace : String)
    (r : List (String × JVal)) (e : String)
    (hok : (process_trace env trace).ret = .ok r)
    (himp : env.chatbotImportFail = none)
    (hread : env.sidecarReadFail = none)
    (hfail : (generate_travel_response env trace (.ok (.obj r))
        (orOS env.openaiKey env.googleKey)).1 = .error e)
    (hw : env.wChatFail = none) :
    (background_process_trace env trace).writes =
      (process_trace env trace).writes ++
        [aset (appendWarning r ("chatbot_failed:" ++ e)) "status"
          (.str "agent_done_chatbot_failed")] ∧
    alookup (aset (appendWarning r ("chatbot_failed:" ++ e)) "status"
        (.str "agent_done_chatbot_failed")) "status" =
      some (.str "agent_done_chatbot_failed") ∧
    (∀ k, hasKeyB r k = true →
      hasKeyB (aset (appendWarning r ("chatbot_failed:" ++ e)) "status"
        (.str "agent_done_chatbot_failed")) k = true) ∧
    (∀ k, k ≠ "warnings" → k ≠ "status" →
      alookup (aset (appendWarning r ("chatbot_failed:" ++ e)) "status"
        (.str "agent_done_chatbot_failed")) k = alookup r k) := by
  refine ⟨?_, alookup_aset_self _ _ _, fun k hk => ?_, fun k hw2 hs => ?_⟩
  · simp only [background_process_trace, hok, himp, hread, hfail, chatFailedWrite, hw]
  · exact hasKeyB_aset_of _ _ _ _ ((extendsOK_appendWarning r _).1 k hk)
  · rw [alookup_aset_ne _ _ _ _ hs, alookup_appendWarning_ne _ _ _ hw2]

/-- C2 witness: a concrete run where response generation raises for lack
of an API key; the rewritten record still has the `text` field. -/
theorem c2_witness :
    (background_process_trace envBase "t2").writes =
      (process_trace envBase "t2").writes ++
        [aset (appendWarning c2res
            ("chatbot_failed:" ++ "No API key provided for chatbot"))
          "status" (.str "agent_done_chatbot_failed")] ∧
    hasKeyB (aset (appendWarning c2res
          ("chatbot_failed:" ++ "No API key provided for chatbot"))
        "status" (.str "agent_done_chatbot_failed")) "text" = true := by
  have h := c2_chatbot_failure_preserves envBase "t2" c2res
    "No API key provided for chatbot" rfl rfl rfl rfl rfl
  exact ⟨h.1, h.2.2.1 "text" rfl⟩

theorem asStrD_pyOr_optToJ (d : Option String) :
    asStrD (pyOr (optToJ d) (.str "")) = d.getD "" := by
  cases d with
  | none => rfl
  | some s =>
    by_cases hs : s = ""
    · subst hs
      rfl
    · simp [optToJ, pyOr, truthy, asStrD, hs]

theorem hasNluParse_twa (env : Env) (q : String) :
    hasNluParseCallWith q (travel_weather_agent env q).2 = true := by
  rcases hN : nlu_parser_travel env q with ⟨nlu, c1⟩
  have hn1 : hasNluParseCallWith q c1 = true := by
    have h := hasNluParse_nlu env q
    rw [hN] at h
    exact h
  simp only [travel_weather_agent, hN]
  split
  · rcases hF : fetch_weather env (dget (dget nlu "entities" (.obj [])) "location" .null)
      with ⟨ret, c2⟩
    cases ret with
    | ok w =>
      simp [hasNluParseCallWith, List.any_append] at hn1 ⊢
      exact Or.inl hn1
    | error e =>
      simp [hasNluParseCallWith, List.any_append] at hn1 ⊢
      exact Or.inl hn1
  · exact hn1

theorem hasNluParse_agentPhase (env : Env) (r2 : List (String × JVal)) (q : String)
    (him : env.agentImportFail = none) :
    hasNluParseCallWith q (agentPhase env r2 q).2 = true := by
  simp only [agentPhase, him]
  rcases hT : travel_weather_agent env q with ⟨ret, cs⟩
  have h := hasNluParse_twa env q
  rw [hT] at h
  cases ret <;> exact h

/-- C6 counterexample: the recognizer reports recognized speech with empty
text and detected language `ja-JP`; the translator is never invoked (the
claim asserts translation whenever the detected language is Japanese) and
the stored English-text field is the empty original transcript. -/
theorem c6_counterexample :
    hasTranslateCall (process_trace envC6 "t6").calls = false ∧
    alookup ((process_trace envC6 "t6").writes.headD []) "text_en" =
      some (.str "") ∧
    alookup ((process_trace envC6 "t6").writes.headD []) "detected_language" =
      some (.str "ja-JP") :=
  ⟨rfl, rfl, rfl⟩

/-- C6 (amended): for a non-empty recognized transcript whose detected
language starts with `ja` (case-insensitively), the translator is invoked
on the transcript; on success checkpoint 1 stores the translation as
`text_en`; on failure a `translation_failed` warning is appended, `text_en`
is null, and the transcript file and the agent query use the original
transcript.  When the detected language is not Japanese, `text_en` is just
the original transcript. -/
theorem c6_translation (env : Env) (trace tx : String) (det : Option String)
    (hau : env.audioExists = true) (hcr : env.azureCreds = true)
    (haz : env.azure = .recognized tx det)
    (hw1 : env.w1Fail = none) (htx : env.txtFail = none)
    (him : env.agentImportFail = none) :
    (tx ≠ "" → strStartsWith (asciiLower (det.getD "")) "ja" = true →
      hasTranslateCallWith tx (process_trace env trace).calls = true ∧
      (∀ tr, env.translateSvc tx = .ok tr →
        alookup ((process_trace env trace).writes.headD []) "text_en" =
          some (.str tr)) ∧
      (∀ e, env.translateSvc tx = .error e →
        alookup ((process_trace env trace).writes.headD []) "text_en" =
          some .null ∧
        alookup ((process_trace env trace).writes.headD []) "warnings" =
          some (.arr [.str ("translation_failed:" ++ e)]) ∧
        (process_trace env trace).txt = some tx ∧
        hasNluParseCallWith tx (process_trace env trace).calls = true)) ∧
    (strStartsWith (asciiLower (det.getD "")) "ja" = false →
      alookup ((process_trace env trace).writes.headD []) "text_en" =
        some (.str tx) ∧
      (process_trace env trace).txt = some tx) := by
  have htr : transcribe env = .ok (.obj [("text", .str tx), ("confidence", .null),
      ("provider", .str "azure-speech"), ("detected_language", optToJ det)]) := by
    simp [transcribe, hcr, haz]
  obtain _ | s := det
  · constructor
    · intro hne hja
      simp [strStartsWith, asciiLower] at hja
    · intro hja
      cases hW2 : env.w2Fail <;>
        · simp only [process_trace, hau, htr, hw1, htx, hW2]
          simp [dget, alookup, truthy, optToJ, pyOr, asStrD, aset, jToPyStr,
            strStartsWith, asciiLower]
          by_cases htx0 : tx = ""
          · subst htx0
            simp
          · simp [htx0]
  · by_cases hs : s = ""
    · subst hs
      constructor
      · intro hne hja
        simp [strStartsWith, asciiLower] at hja
      · intro hja
        cases hW2 : env.w2Fail <;>
          · simp only [process_trace, hau, htr, hw1, htx, hW2]
            simp [dget, alookup, truthy, optToJ, pyOr, asStrD, aset, jToPyStr,
              strStartsWith, asciiLower]
            by_cases htx0 : tx = ""
            · subst htx0
              simp
            · simp [htx0]
    · constructor
      · intro hne hja
        have hjs : strStartsWith (asciiLower s) "ja" = true := by simpa using hja
        refine ⟨?_, fun tr htrans => ?_, fun e htrans => ?_⟩
        · cases henv : env.translateSvc tx with
          | ok tr =>
            cases hW2 : env.w2Fail <;>
              · simp only [process_trace, hau, htr, hw1, htx, hW2]
                simp [dget, alookup, truthy, optToJ, pyOr, asStrD, hne, hs, hjs,
                  henv, hasTranslateCallWith, List.any_append]
          | error e =>
            cases hW2 : env.w2Fail <;>
              · simp only [process_trace, hau, htr, hw1, htx, hW2]
                simp [dget, alookup, truthy, optToJ, pyOr, asStrD, hne, hs, hjs,
                  henv, hasTranslateCallWith, List.any_append]
        · cases hW2 : env.w2Fail <;>
            · simp only [process_trace, hau, htr, hw1, htx, hW2]
              simp [dget, alookup, truthy, optToJ, pyOr, asStrD, hne, hs, hjs,
                htrans, aset]
        · cases hW2 : env.w2Fail <;>
            · simp only [process_trace, hau, htr, hw1, htx, hW2, him]
              simp [dget, alookup, truthy, optToJ, pyOr, asStrD, hne, hs, hjs,
                htrans, aset, appendWarning, jToPyStr, hasNluParseCallWith,
                List.any_append]
              have hag := hasNluParse_agentPhase env
                [("trace_id", JVal.str trace), ("text", JVal.str tx),
                 ("confidence", JVal.null), ("provider", JVal.str "azure-speech"),
                 ("detected_language", JVal.str s),
                 ("processed_at", JVal.num env.nowEpoch), ("text_en", JVal.null),
                 ("warnings", JVal.arr [JVal.str ("translation_failed:" ++ e)]),
                 ("text_file", JVal.str ("uploads/" ++ trace ++ ".txt"))] tx him
              simpa [hasNluParseCallWith] using hag
      · intro hja
        have hjs : strStartsWith (asciiLower s) "ja" = false := by simpa using hja
        cases hW2 : env.w2Fail <;>
          · simp only [process_trace, hau, htr, hw1, htx, hW2]
            simp [dget, alookup, truthy, optToJ, pyOr, asStrD, hs, hjs, aset,
              jToPyStr]
            by_cases htx0 : tx = ""
            · subst htx0
              simp
            · simp [htx0]

/-- C6 witness: Japanese recognition with a working translator; the
translator is called on the transcript and the translation is stored as
`text_en`. -/
theorem c6_witness :
    hasTranslateCallWith "ashita no tenki" (process_trace envC6w "t6w").calls = true ∧
    alookup ((process_trace envC6w "t6w").writes.headD []) "text_en" =
      some (.str "weather tomorrow") := by
  have h := (c6_translation envC6w "t6w" "ashita no tenki" (some "ja-JP")
    rfl rfl rfl rfl rfl rfl).1 (by decide) (by decide)
  exact ⟨h.1, h.2.1 "weather tomorrow" rfl⟩

/-! ## String-trimming lemmas for the Context Builder -/

theorem dropWhile_eq_self_of_head {p : Char → Bool} {a : Char} {t : List Char}
    (h : p a = false) : (a :: t).dropWhile p = a :: t := by
  simp [List.dropWhile_cons, h]

theorem dropWhile_eq_self_of_all {p : Char → Bool} {l : List Char}
    (h : ∀ c ∈ l, p c = false) : l.dropWhile p = l := by
  cases l with
  | nil => rfl
  | cons a t => exact dropWhile_eq_self_of_head (h a (by simp))

theorem dropEnds_eq_self_of_all {p : Char → Bool} {l : List Char}
    (h : ∀ c ∈ l, p c = false) : dropEnds p l = l := by
  unfold dropEnds
  rw [dropWhile_eq_self_of_all h,
      dropWhile_eq_self_of_all (fun c hc => h c (List.mem_reverse.mp hc)),
      List.reverse_reverse]

theorem okLoc_not_comma_space {s : String} (h : okLocChars s = true) :
    ∀ c ∈ s.toList, ((c = ',' || c = ' ') = false ∧ wsChars.contains c = false) := by
  intro c hc
  have h2 := List.all_eq_true.mp h c hc
  rw [Bool.not_eq_eq_eq_not, Bool.not_true, Bool.or_eq_false_iff] at h2
  refine ⟨?_, h2.2⟩
  rw [Bool.or_eq_false_iff]
  refine ⟨h2.1, ?_⟩
  have hsp : (' ' ∈ wsChars) := by decide
  by_cases hc2 : c = ' '
  · subst hc2
    exact absurd h2.2 (by simp [wsChars])
  · simp [hc2]

theorem strMk_toList (s : String) : String.mk s.toList = s := rfl

theorem pyStrip_eq_self {s : String} (h : ∀ c ∈ s.toList, wsChars.contains c = false) :
    pyStrip s = s := by
  unfold pyStrip
  rw [dropEnds_eq_self_of_all h]
  exact strMk_toList s

theorem dropWhile_eq_self_of_head? {p : Char → Bool} {l : List Char}
    (h : ∀ c, l.head? = some c → p c = false) : l.dropWhile p = l := by
  cases l with
  | nil => rfl
  | cons a t => exact dropWhile_eq_self_of_head (h a rfl)

theorem dropEnds_eq_self_of_head_last {p : Char → Bool} {l : List Char}
    (h1 : ∀ c, l.head? = some c → p c = false)
    (h2 : ∀ c, l.getLast? = some c → p c = false) : dropEnds p l = l := by
  unfold dropEnds
  rw [dropWhile_eq_self_of_head? h1,
      dropWhile_eq_self_of_head? (fun c hc => h2 c (by rwa [List.head?_reverse] at hc)),
      List.reverse_reverse]

theorem mem_of_getLast?_some {α : Type} {l : List α} {a : α}
    (h : l.getLast? = some a) : a ∈ l := by
  rw [← List.head?_reverse] at h
  have hm : a ∈ l.reverse := by
    cases hr : l.reverse with
    | nil => rw [hr] at h; cases h
    | cons b u =>
      rw [hr] at h
      simp only [List.head?_cons, Option.some.injEq] at h
      exact h ▸ List.mem_cons_self b u
  exact List.mem_reverse.mp hm

theorem toList_ne_nil_of_ne_empty {s : String} (h : s ≠ "") : s.toList ≠ [] := by
  intro h2
  apply h
  cases s with
  | mk data =>
    simp only [String.toList] at h2
    simp [h2]

theorem pyStrip_eq_self_of_ends {s : String}
    (h1 : ∀ c, s.toList.head? = some c → wsChars.contains c = false)
    (h2 : ∀ c, s.toList.getLast? = some c → wsChars.contains c = false) :
    pyStrip s = s := by
  unfold pyStrip
  rw [dropEnds_eq_self_of_head_last h1 h2]
  exact strMk_toList s

theorem stripCS_full {L C : String} (hL : L.toList ≠ []) (hC : C.toList ≠ [])
    (hLo : okLocChars L = true) (hCo : okLocChars C = true) :
    pyStripCommaSpace (L ++ ", " ++ C) = L ++ ", " ++ C := by
  have hokL := okLoc_not_comma_space hLo
  have hokC := okLoc_not_comma_space hCo
  have hlist : (L ++ ", " ++ C).toList = (L.toList ++ [',', ' ']) ++ C.toList := by
    simp [String.toList]
  obtain ⟨a, t, hat⟩ : ∃ a t, L.toList = a :: t := by
    cases h : L.toList with
    | nil => exact absurd h hL
    | cons a t => exact ⟨a, t, rfl⟩
  have h1 : ∀ c, ((L.toList ++ [',', ' ']) ++ C.toList).head? = some c →
      (fun c => c = ',' || c = ' ') c = false := by
    intro c hc
    rw [hat] at hc
    simp only [List.cons_append, List.head?_cons, Option.some.injEq] at hc
    subst hc
    exact (hokL a (by rw [hat]; exact List.mem_cons_self a t)).1
  have h2 : ∀ c, ((L.toList ++ [',', ' ']) ++ C.toList).getLast? = some c →
      (fun c => c = ',' || c = ' ') c = false := by
    intro c hc
    rw [List.getLast?_append_of_ne_nil _ hC] at hc
    exact (hokC c (mem_of_getLast?_some hc)).1
  unfold pyStripCommaSpace
  rw [hlist, dropEnds_eq_self_of_head_last h1 h2, ← hlist]
  exact strMk_toList _

theorem stripCS_trailing {L : String} (hL : L.toList ≠ []) (hLo : okLocChars L = true) :
    pyStripCommaSpace (L ++ ", ") = L := by
  have hokL := okLoc_not_comma_space hLo
  have hlist : (L ++ ", ").toList = L.toList ++ [',', ' '] := by
    simp [String.toList]
  obtain ⟨a, t, hat⟩ : ∃ a t, L.toList = a :: t := by
    cases h : L.toList with
    | nil => exact absurd h hL
    | cons a t => exact ⟨a, t, rfl⟩
  unfold pyStripCommaSpace dropEnds
  rw [hlist]
  have hfront : List.dropWhile (fun c => c = ',' || c = ' ') (L.toList ++ [',', ' '])
      = L.toList ++ [',', ' '] := by
    rw [hat, List.cons_append]
    exact dropWhile_eq_self_of_head
      ((hokL a (by rw [hat]; exact List.mem_cons_self a t)).1)
  rw [hfront]
  have hrev : (L.toList ++ [',', ' ']).reverse = ' ' :: ',' :: L.toList.reverse := by
    simp
  rw [hrev]
  have hback : List.dropWhile (fun c => c = ',' || c = ' ')
      (' ' :: ',' :: L.toList.reverse) = L.toList.reverse := by
    rw [List.dropWhile_cons, if_pos (by decide), List.dropWhile_cons,
        if_pos (by decide)]
    exact dropWhile_eq_self_of_all
      (fun c hc => (hokL c (List.mem_reverse.mp hc)).1)
  rw [hback, List.reverse_reverse]
  exact strMk_toList L

/-- C9: the Context Builder is a pure function of (nlu, weather) whose
location string joins the weather location and country with ", " and trims
leading/trailing commas and whitespace: merging Paris/FR yields
"Paris, FR"; merging Paris with an empty country yields "Paris" with no
dangling comma; and in general, for non-empty comma- and whitespace-free
fragments, the location is L when the country is empty and "L, C"
otherwise. -/
theorem c9_merged_location :
    build_merged_context (.obj [])
        (.obj [("location", .str "Paris"), ("country", .str "FR")]) =
      .ok (.obj [("user_query", .str ""), ("intent", .null),
                 ("location", .str "Paris, FR"), ("date", .null), ("theme", .null),
                 ("weather_data",
                  .obj [("location", .str "Paris"), ("country", .str "FR")])]) ∧
    build_merged_context (.obj [])
        (.obj [("location", .str "Paris"), ("country", .str "")]) =
      .ok (.obj [("user_query", .str ""), ("intent", .null),
                 ("location", .str "Paris"), ("date", .null), ("theme", .null),
                 ("weather_data",
                  .obj [("location", .str "Paris"), ("country", .str "")])]) ∧
    (∀ L C : String, L ≠ "" → okLocChars L = true → okLocChars C = true →
      build_merged_context (.obj [])
          (.obj [("location", .str L), ("country", .str C)]) =
        .ok (.obj [("user_query", .str ""), ("intent", .null),
                   ("location", .str (if C = "" then L else L ++ ", " ++ C)),
                   ("date", .null), ("theme", .null),
                   ("weather_data",
                    .obj [("location", .str L), ("country", .str C)])])) := by
  refine ⟨rfl, rfl, fun L C hL hLo hCo => ?_⟩
  have hLt := toList_ne_nil_of_ne_empty hL
  have hstripL : pyStrip L = L :=
    pyStrip_eq_self (fun c hc => (okLoc_not_comma_space hLo c hc).2)
  have hstripC : pyStrip C = C :=
    pyStrip_eq_self (fun c hc => (okLoc_not_comma_space hCo c hc).2)
  have h0 : pyStrip "" = "" := rfl
  by_cases hC : C = ""
  · subst hC
    simp [build_merged_context, alookup, pyOr, truthy, hL, hstripL, h0,
      stripCS_trailing hLt hLo]
  · have hCt := toList_ne_nil_of_ne_empty hC
    have hbig : pyStrip (L ++ ", " ++ C) = L ++ ", " ++ C := by
      have hlist : (L ++ ", " ++ C).toList = (L.toList ++ [',', ' ']) ++ C.toList := by
        simp [String.toList]
      apply pyStrip_eq_self_of_ends
      · intro c hc
        rw [hlist] at hc
        obtain ⟨a, t, hat⟩ : ∃ a t, L.toList = a :: t := by
          cases h : L.toList with
          | nil => exact absurd h hLt
          | cons a t => exact ⟨a, t, rfl⟩
        rw [hat] at hc
        simp only [List.cons_append, List.head?_cons, Option.some.injEq] at hc
        subst hc
        exact (okLoc_not_comma_space hLo _
          (by rw [hat]; exact List.mem_cons_self _ _)).2
      · intro c hc
        rw [hlist, List.getLast?_append_of_ne_nil _ hCt] at hc
        exact (okLoc_not_comma_space hCo c (mem_of_getLast?_some hc)).2
    simp [build_merged_context, alookup, pyOr, truthy, hL, hC, hstripL, hstripC,
      stripCS_full hLt hCt hLo hCo, hbig]

/-- C9 witness: the general statement applied at Paris/FR. -/
theorem c9_witness :
    build_merged_context (.obj [])
        (.obj [("location", .str "Paris"), ("country", .str "FR")]) =
      .ok (.obj [("user_query", .str ""), ("intent", .null),
                 ("location", .str (if "FR" = "" then "Paris" else "Paris" ++ ", " ++ "FR")),
                 ("date", .null), ("theme", .null),
                 ("weather_data",
                  .obj [("location", .str "Paris"), ("country", .str "FR")])]) :=
  c9_merged_location.2.2 "Paris" "FR" (by decide) (by decide) (by decide)

end Weatherbot